import Mathlib

/-!
Verification of the Authentication & Session Core of the
field-maintenance-backend repository: token issuance (`generateTokens`),
verification (`verifyAccessToken`, `verifyRefreshToken`), bearer-header
extraction (`getTokenFromHeader`), the authentication middleware
(`authenticate`), the in-memory blacklist (`blacklistToken`,
`isTokenBlacklisted`) and the refresh endpoint (`refresh`).

The JavaScript string operations used by the source
(`String.prototype.split(' ')` and `String.prototype.includes`) are
embedded as executable functions on character lists.  The `jsonwebtoken`
library is embedded symbolically: a signed token records its claims, the
signing secret, issue and expiry times and the issuer/audience strings;
`jwtVerify` checks the signature (secret equality), then expiry, then
audience and issuer, exactly in the order the library does, and reports
either `TokenExpiredError` or `JsonWebTokenError` (a structurally
undecodable string reports `JsonWebTokenError`, message "jwt malformed").
HTTP error responses are embedded as status/message/code records; thrown
`AppError`s are rendered the way the production error handler renders
operational errors, and thrown plain `Error`s the way it renders
non-operational ones (HTTP 500, code INTERNAL_ERROR).
-/

namespace FieldMaintenance

/-- JS `String.prototype.split(sep)` for a one-character separator,
on character lists: splits at every occurrence of `sep`, keeping empty
segments, and returns `[""]` on the empty string. -/
def jsSplitAux (sep : Char) : List Char → List Char → List String
  | [], acc => [String.mk acc.reverse]
  | c :: rest, acc =>
    if c == sep then String.mk acc.reverse :: jsSplitAux sep rest []
    else jsSplitAux sep rest (c :: acc)

/-- JS `s.split(sep)` for a one-character separator. -/
def jsSplit (s : String) (sep : Char) : List String :=
  jsSplitAux sep s.toList []

/-- Whether `sub` is an initial segment of `s` (character lists). -/
def charsStartWith : List Char → List Char → Bool
  | _, [] => true
  | [], _ :: _ => false
  | c :: cs, d :: ds => c == d && charsStartWith cs ds

/-- Whether `sub` occurs contiguously in `s` (character lists). -/
def charsContain : List Char → List Char → Bool
  | [], sub => sub.isEmpty
  | c :: cs, sub => charsStartWith (c :: cs) sub || charsContain cs sub

/-- JS `s.includes(sub)`. -/
def jsIncludes (s sub : String) : Bool :=
  charsContain s.toList sub.toList

/-- The identity payload placed in an access token
(`JWTUtil.createPayload`): `{userId, email, name, role, isActive}`. -/
structure Payload where
  userId : String
  email : String
  name : String
  role : String
  isActive : Bool
deriving DecidableEq, Repr

/-- Claims carried by a signed token: either a full identity payload
(access tokens) or `{userId}` alone (refresh tokens). -/
inductive JwtClaims where
  | full (p : Payload)
  | uid (userId : String)
deriving DecidableEq, Repr

/-- The `userId` property of a decoded claims object. -/
def JwtClaims.userId : JwtClaims → String
  | .full p => p.userId
  | .uid u => u

/-- A token produced by `jwt.sign`: claims plus the signing secret,
issue time `iat`, absolute expiry `exp`, issuer and audience. -/
structure SignedToken where
  claims : JwtClaims
  secret : String
  iat : Nat
  exp : Nat
  iss : String
  aud : String
deriving DecidableEq, Repr

/-- The space of token strings: either a well-formed JWT (the encoding of
a `SignedToken`; HS256 signing is deterministic, so equal field values
give equal strings) or a plain string that does not decode as a JWT. -/
inductive TokenString where
  | plain (s : String)
  | jwt (t : SignedToken)
deriving DecidableEq, Repr

/-- The two error classes `jsonwebtoken` can throw from `verify`:
`TokenExpiredError` and `JsonWebTokenError` (the latter covers malformed
tokens, bad signatures and issuer/audience mismatches). -/
inductive JwtError where
  | tokenExpiredError
  | jsonWebTokenError
deriving DecidableEq, Repr

/-- `jwt.sign(claims, secret, {expiresIn: ttl, issuer, audience})` at
time `now`. -/
def jwtSign (claims : JwtClaims) (secret : String) (ttl : Nat)
    (iss aud : String) (now : Nat) : TokenString :=
  .jwt ⟨claims, secret, now, now + ttl, iss, aud⟩

/-- `jwt.verify(tok, secret, {issuer, audience})` at time `now`:
decode, check signature, then expiry, then audience, then issuer,
in the order the library performs the checks. -/
def jwtVerify (tok : TokenString) (secret iss aud : String) (now : Nat) :
    Except JwtError JwtClaims :=
  match tok with
  | .plain _ => .error .jsonWebTokenError
  | .jwt t =>
    if t.secret ≠ secret then .error .jsonWebTokenError
    else if t.exp ≤ now then .error .tokenExpiredError
    else if t.aud ≠ aud then .error .jsonWebTokenError
    else if t.iss ≠ iss then .error .jsonWebTokenError
    else .ok t.claims

/-- The environment consumed by `JWTUtil`: `JWT_SECRET`,
`JWT_REFRESH_SECRET`, `JWT_EXPIRE` and `JWT_REFRESH_EXPIRE`
(the TTLs in seconds; defaults 15m and 7d). -/
structure JwtEnv where
  jwtSecret : String
  jwtRefreshSecret : String
  jwtExpire : Nat
  jwtRefreshExpire : Nat
deriving DecidableEq, Repr

/-- The issuer claim used throughout `JWTUtil`. -/
def issuer : String := "field-maintenance-api"

/-- The audience claim used throughout `JWTUtil`. -/
def audience : String := "field-maintenance-app"

/-- `JWTUtil.generateTokens(payload)`: the access token signs the full
payload with `JWT_SECRET`, the refresh token signs `{userId}` alone with
`JWT_REFRESH_SECRET`; both carry the fixed issuer and audience. -/
def generateTokens (env : JwtEnv) (now : Nat) (payload : Payload) :
    TokenString × TokenString :=
  (jwtSign (.full payload) env.jwtSecret env.jwtExpire issuer audience now,
   jwtSign (.uid payload.userId) env.jwtRefreshSecret env.jwtRefreshExpire
     issuer audience now)

/-- `JWTUtil.verifyAccessToken(token)`: verify against `JWT_SECRET` and
rethrow `TokenExpiredError` as `Error('Access token expired')` and
`JsonWebTokenError` as `Error('Invalid access token')`.  The error value
is the thrown message. -/
def verifyAccessToken (env : JwtEnv) (now : Nat) (tok : TokenString) :
    Except String JwtClaims :=
  match jwtVerify tok env.jwtSecret issuer audience now with
  | .ok c => .ok c
  | .error .tokenExpiredError => .error "Access token expired"
  | .error .jsonWebTokenError => .error "Invalid access token"

/-- `JWTUtil.verifyRefreshToken(token)`: verify against
`JWT_REFRESH_SECRET`; failures become `Error('Refresh token expired')`
or `Error('Invalid refresh token')`. -/
def verifyRefreshToken (env : JwtEnv) (now : Nat) (tok : TokenString) :
    Except String JwtClaims :=
  match jwtVerify tok env.jwtRefreshSecret issuer audience now with
  | .ok c => .ok c
  | .error .tokenExpiredError => .error "Refresh token expired"
  | .error .jsonWebTokenError => .error "Invalid refresh token"

/-- `JWTUtil.getTokenFromHeader(authHeader)`: `null` when the header is
absent or empty (JS falsiness), otherwise split on single spaces and
demand exactly `['Bearer', token]`. -/
def getTokenFromHeader (authHeader : Option String) : Option String :=
  match authHeader with
  | none => none
  | some s =>
    if s = "" then none
    else
      let parts := jsSplit s ' '
      if parts.length ≠ 2 ∨ parts.head? ≠ some "Bearer" then none
      else parts[1]?

/-- The extraction guard of `getTokenFromHeader` as a boolean: the header
is present and splits into exactly `['Bearer', token]`. -/
def bearerFormatOk (authHeader : Option String) : Bool :=
  match authHeader with
  | none => false
  | some s =>
    (jsSplit s ' ').length == 2 && ((jsSplit s ' ').head? == some "Bearer")

/-- A persisted refresh-token record `{token, issuedAt}` on a user. -/
structure RefreshRecord where
  token : String
  issuedAt : Nat
deriving DecidableEq, Repr

/-- The user record fields the authentication core reads and writes. -/
structure User where
  userId : String
  email : String
  name : String
  role : String
  isActive : Bool
  refreshTokens : List RefreshRecord
deriving DecidableEq, Repr

/-- `JWTUtil.createPayload(user)`. -/
def createPayload (u : User) : Payload :=
  ⟨u.userId, u.email, u.name, u.role, u.isActive⟩

/-- An HTTP error response: status, message and the optional
machine-readable `code` field of the JSON body. -/
structure ErrResponse where
  status : Nat
  message : String
  code : Option String
deriving DecidableEq, Repr

/-- `Set.prototype.add`: the blacklist as an insertion-ordered
duplicate-free list; adding an existing member leaves it unchanged. -/
def setAdd (bl : List String) (t : String) : List String :=
  if t ∈ bl then bl else bl ++ [t]

/-- `blacklistToken(token)` from the auth middleware: add the token; if
the set then holds more than 10,000 entries, clear it and re-add
`Array.from(set).slice(-5000)` — the 5,000 most recently added entries,
in insertion order. -/
def blacklistToken (bl : List String) (t : String) : List String :=
  let bl2 := setAdd bl t
  if bl2.length > 10000 then bl2.drop (bl2.length - 5000) else bl2

/-- `isTokenBlacklisted(token)`: `tokenBlacklist.has(token)`. -/
def isTokenBlacklisted (bl : List String) (t : String) : Bool :=
  bl.contains t

/-- The `authenticate` middleware: extract the bearer token, reject when
absent, reject when blacklisted, verify as an access token (classifying
a thrown message by `includes('expired')` then `includes('Invalid')`),
load the user, reject when absent or inactive, else succeed with the
user and the raw token string.  `verify` and `findById` are the injected
`JWTUtil.verifyAccessToken` and `User.findById` collaborators. -/
def authenticate (verify : String → Except String JwtClaims)
    (findById : String → Option User)
    (bl : List String) (header : Option String) :
    Except ErrResponse (User × String) :=
  match getTokenFromHeader header with
  | none => .error ⟨401, "Access token required", none⟩
  | some token =>
    if token = "" then .error ⟨401, "Access token required", none⟩
    else if bl.contains token then
      .error ⟨401, "Token has been revoked", none⟩
    else
      match verify token with
      | .error msg =>
        if jsIncludes msg "expired" then
          .error ⟨401, "Access token expired", some "TOKEN_EXPIRED"⟩
        else if jsIncludes msg "Invalid" then
          .error ⟨401, "Invalid access token", none⟩
        else .error ⟨500, "Authentication failed", none⟩
      | .ok decoded =>
        match findById decoded.userId with
        | none => .error ⟨401, "User not found", none⟩
        | some user =>
          if user.isActive = false then
            .error ⟨401, "Account is deactivated", none⟩
          else .ok (user, token)

/-- Modelled from the spec: the `User.removeRefreshToken(token)` session
store operation (the User model file is not part of the sources).  Spec
4.3: "filter the list to exclude the exact string match; persist.
Removing a token not present is a no-op". -/
def removeRefreshToken (u : User) (t : String) : User :=
  { u with refreshTokens := u.refreshTokens.filter (fun r => r.token ≠ t) }

/-- Modelled from the spec: the `User.addRefreshToken(token)` session
store operation (the User model file is not part of the sources).  Spec
4.3: "append {token, issuedAt: now} to the user's list; persist". -/
def addRefreshToken (u : User) (t : String) (now : Nat) : User :=
  { u with refreshTokens := u.refreshTokens ++ [⟨t, now⟩] }

/-- The data of a successful refresh: the persisted user state and the
fresh access and refresh token strings. -/
structure RefreshSuccess where
  user : User
  accessToken : String
  refreshToken : String
deriving DecidableEq, Repr

/-- The `refresh` controller: demand a body token (JS falsiness, so the
empty string also fails REFRESH_TOKEN_REQUIRED), verify the refresh
token (a thrown plain `Error` reaches the error handler as a
non-operational error: HTTP 500 INTERNAL_ERROR), load the user
(`USER_NOT_FOUND` is thrown with status 404), reject inactive accounts,
demand that the exact token string is in `user.refreshTokens`, then
rotate: issue a fresh pair, remove the presented refresh token and add
the new one.  `verifyR`, `findById` and `gen` are the injected
`JWTUtil.verifyRefreshToken`, `User.findById` and
`JWTUtil.generateTokens ∘ createPayload` collaborators. -/
def refresh (verifyR : String → Except String JwtClaims)
    (findById : String → Option User)
    (gen : Payload → String × String)
    (now : Nat) (body : Option String) : Except ErrResponse RefreshSuccess :=
  match body with
  | none => .error ⟨400, "Refresh token required", some "REFRESH_TOKEN_REQUIRED"⟩
  | some refreshToken =>
    if refreshToken = "" then
      .error ⟨400, "Refresh token required", some "REFRESH_TOKEN_REQUIRED"⟩
    else
      match verifyR refreshToken with
      | .error _ => .error ⟨500, "Something went wrong", some "INTERNAL_ERROR"⟩
      | .ok decoded =>
        match findById decoded.userId with
        | none => .error ⟨404, "User not found", some "USER_NOT_FOUND"⟩
        | some user =>
          if user.isActive = false then
            .error ⟨401, "Account is deactivated", some "ACCOUNT_DEACTIVATED"⟩
          else if user.refreshTokens.any (fun r => r.token = refreshToken) = false then
            .error ⟨401, "Invalid refresh token", some "INVALID_REFRESH_TOKEN"⟩
          else
            let payload := createPayload user
            let tokens := gen payload
            let user1 := removeRefreshToken user refreshToken
            let user2 := addRefreshToken user1 tokens.2 now
            .ok ⟨user2, tokens.1, tokens.2⟩

end FieldMaintenance

namespace FieldMaintenance

/-- Adding a token always makes it a member of the set. -/
theorem mem_setAdd_self (bl : List String) (t : String) : t ∈ setAdd bl t := by
  unfold setAdd; split <;> simp_all

/-- Adding a token preserves the existing members. -/
theorem mem_setAdd_of_mem (bl : List String) (t x : String) (h : x ∈ bl) :
    x ∈ setAdd bl t := by
  unfold setAdd; split <;> simp_all

/-- If the blacklist respected the size bound before the call and the add
pushed it over 10,000, the added token was not already present. -/
theorem not_mem_of_eviction (bl : List String) (t : String)
    (hlen : bl.length ≤ 10000) (hev : (setAdd bl t).length > 10000) : t ∉ bl := by
  intro hmem
  rw [setAdd, if_pos hmem] at hev
  omega

/-- On any blacklist within the size bound, the token just passed to
`blacklistToken` is a member of the result, whether or not the call
triggered the eviction. -/
theorem mem_blacklistToken_self (bl : List String) (t : String)
    (hlen : bl.length ≤ 10000) : t ∈ blacklistToken bl t := by
  by_cases hev : (setAdd bl t).length > 10000
  · have hnot : t ∉ bl := not_mem_of_eviction bl t hlen hev
    have hadd : setAdd bl t = bl ++ [t] := by rw [setAdd, if_neg hnot]
    rw [blacklistToken]
    simp only [hadd] at hev ⊢
    rw [if_pos hev]
    have hk : (bl ++ [t]).length - 5000 ≤ bl.length := by
      simp only [List.length_append, List.length_singleton]
      omega
    rw [List.drop_append_of_le_length hk]
    simp
  · rw [blacklistToken]
    simp only [if_neg hev]
    exact mem_setAdd_self bl t

/-- When the add stays within the 10,000 bound, `blacklistToken` is plain
set insertion. -/
theorem blacklistToken_no_eviction (bl : List String) (t : String)
    (h : (setAdd bl t).length ≤ 10000) : blacklistToken bl t = setAdd bl t := by
  rw [blacklistToken]
  simp only [if_neg (by omega : ¬ (setAdd bl t).length > 10000)]

/-- List membership gives a true `contains` check. -/
theorem contains_of_mem (bl : List String) (t : String) (h : t ∈ bl) :
    bl.contains t = true := by
  simp [List.elem_eq_mem, h]

/-- After rotation the presented token string is on no record of the
resulting list, provided the fresh token differs from it. -/
theorem rotated_no_old (u : User) (rt nrt : String) (now : Nat) (hnew : nrt ≠ rt) :
    (addRefreshToken (removeRefreshToken u rt) nrt now).refreshTokens.any
      (fun r => r.token = rt) = false := by
  simp only [addRefreshToken, removeRefreshToken, List.any_append, List.any_eq_false,
    Bool.or_eq_false_iff]
  constructor
  · intro r hr
    have := List.of_mem_filter hr
    simpa using this
  · simp [hnew]

/-- After rotation the freshly issued token record is on the resulting
list. -/
theorem rotated_has_new (u : User) (rt nrt : String) (now : Nat) :
    (RefreshRecord.mk nrt now) ∈
      (addRefreshToken (removeRefreshToken u rt) nrt now).refreshTokens := by
  simp [addRefreshToken, removeRefreshToken]

/-- Claim C1: for every user whose refreshTokens list does not contain the
string rt, a refresh request presenting rt is rejected with the Invalid
failure (401, code INVALID_REFRESH_TOKEN) even when the refresh verifier
alone succeeds cryptographically on rt; it is never treated as success. -/
theorem refresh_rejects_unlisted_refresh_token
    (verifyR : String → Except String JwtClaims) (findById : String → Option User)
    (gen : Payload → String × String) (now : Nat) (rt : String)
    (c : JwtClaims) (u : User)
    (hrt : rt ≠ "")
    (hv : verifyR rt = Except.ok c)
    (hf : findById c.userId = some u)
    (ha : u.isActive = true)
    (hm : u.refreshTokens.any (fun r => r.token = rt) = false) :
    refresh verifyR findById gen now (some rt) =
      Except.error ⟨401, "Invalid refresh token", some "INVALID_REFRESH_TOKEN"⟩ := by
  simp [refresh, hrt, hv, hf, ha, hm]

/-- Witness for C1 at a concrete state: the user holds only the record
"other-token", so presenting "rt0" fails INVALID_REFRESH_TOKEN although
the verifier accepts it. -/
theorem refresh_rejects_unlisted_refresh_token_witness :
    ("rt0" : String) ≠ "" ∧
    (User.mk "u1" "a@b.c" "Nora" "admin" true [⟨"other-token", 0⟩]).refreshTokens.any
      (fun r => r.token = "rt0") = false ∧
    refresh (fun _ => Except.ok (JwtClaims.uid "u1"))
      (fun _ => some (User.mk "u1" "a@b.c" "Nora" "admin" true [⟨"other-token", 0⟩]))
      (fun _ => ("at1", "rt1")) 0 (some "rt0") =
      Except.error ⟨401, "Invalid refresh token", some "INVALID_REFRESH_TOKEN"⟩ :=
  ⟨by decide, by decide,
    refresh_rejects_unlisted_refresh_token
      (fun _ => Except.ok (JwtClaims.uid "u1"))
      (fun _ => some (User.mk "u1" "a@b.c" "Nora" "admin" true [⟨"other-token", 0⟩]))
      (fun _ => ("at1", "rt1")) 0 "rt0" (JwtClaims.uid "u1")
      (User.mk "u1" "a@b.c" "Nora" "admin" true [⟨"other-token", 0⟩])
      (by decide) rfl rfl rfl (by decide)⟩

/-- Claim C2: after `blacklistToken t` (on a blacklist within the size
bound), `isTokenBlacklisted t` is true; it stays true over any later
`blacklistToken` call that does not trigger the bulk eviction; and the
authenticate pipeline rejects any request whose header extracts to `t`
with the Revoked failure — the membership check fires before and
regardless of verification, even though the injected verifier accepts
`t` (hypothesis `hv`). -/
theorem blacklisted_token_rejected_as_revoked
    (bl bl3 : List String) (t t2 : String)
    (verify : String → Except String JwtClaims)
    (findById : String → Option User) (header : Option String) (c : JwtClaims)
    (hlen : bl.length ≤ 10000) (ht : t ≠ "")
    (hv : verify t = Except.ok c)
    (hmem3 : t ∈ bl3)
    (hnoev : (setAdd bl3 t2).length ≤ 10000)
    (hext : getTokenFromHeader header = some t) :
    isTokenBlacklisted (blacklistToken bl t) t = true ∧
    isTokenBlacklisted (blacklistToken bl3 t2) t = true ∧
    authenticate verify findById (blacklistToken bl t) header =
      Except.error ⟨401, "Token has been revoked", none⟩ := by
  have hmem : t ∈ blacklistToken bl t := mem_blacklistToken_self bl t hlen
  have h1 : isTokenBlacklisted (blacklistToken bl t) t = true :=
    contains_of_mem _ _ hmem
  have h2 : isTokenBlacklisted (blacklistToken bl3 t2) t = true := by
    rw [blacklistToken_no_eviction _ _ hnoev]
    exact contains_of_mem _ _ (mem_setAdd_of_mem _ _ _ hmem3)
  refine ⟨h1, h2, ?_⟩
  simp only [authenticate, hext]
  rw [if_neg ht]
  rw [if_pos]
  exact h1

/-- Witness for C2: blacklisting "tok1" on the empty blacklist, then a
further non-evicting add of "tok2"; the request "Bearer tok1" is
rejected Revoked although the verifier accepts the token. -/
theorem blacklisted_token_rejected_as_revoked_witness :
    ([] : List String).length ≤ 10000 ∧
    ("tok1" : String) ≠ "" ∧
    "tok1" ∈ blacklistToken [] "tok1" ∧
    (setAdd (blacklistToken [] "tok1") "tok2").length ≤ 10000 ∧
    getTokenFromHeader (some "Bearer tok1") = some "tok1" ∧
    (isTokenBlacklisted (blacklistToken [] "tok1") "tok1" = true ∧
     isTokenBlacklisted (blacklistToken (blacklistToken [] "tok1") "tok2") "tok1" = true ∧
     authenticate (fun _ => Except.ok (JwtClaims.uid "u1")) (fun _ => none)
       (blacklistToken [] "tok1") (some "Bearer tok1") =
       Except.error ⟨401, "Token has been revoked", none⟩) :=
  ⟨by decide, by decide, by decide, by decide, by decide,
    blacklisted_token_rejected_as_revoked [] (blacklistToken [] "tok1") "tok1" "tok2"
      (fun _ => Except.ok (JwtClaims.uid "u1")) (fun _ => none)
      (some "Bearer tok1") (JwtClaims.uid "u1")
      (by decide) (by decide) rfl (by decide) (by decide) (by decide)⟩

/-- Claim C3: generating a token pair and verifying the access token
before its TTL has elapsed returns exactly the issued payload as the
decoded claims (round-trip). -/
theorem generateTokens_verifyAccessToken_roundtrip
    (env : JwtEnv) (now now2 : Nat) (p : Payload)
    (h : now2 < now + env.jwtExpire) :
    verifyAccessToken env now2 (generateTokens env now p).1 =
      Except.ok (JwtClaims.full p) := by
  have h2 : ¬ (now + env.jwtExpire ≤ now2) := by omega
  simp [generateTokens, verifyAccessToken, jwtSign, jwtVerify, h2]

/-- Witness for C3 at a concrete payload, issue time 0 and verify time 10
with a 900 second TTL. -/
theorem generateTokens_verifyAccessToken_roundtrip_witness :
    (10 : Nat) < 0 + (JwtEnv.mk "access-secret" "refresh-secret" 900 604800).jwtExpire ∧
    verifyAccessToken ⟨"access-secret", "refresh-secret", 900, 604800⟩ 10
      (generateTokens ⟨"access-secret", "refresh-secret", 900, 604800⟩ 0
        ⟨"u1", "a@b.c", "Nora", "admin", true⟩).1 =
      Except.ok (JwtClaims.full ⟨"u1", "a@b.c", "Nora", "admin", true⟩) :=
  ⟨by decide,
    generateTokens_verifyAccessToken_roundtrip
      ⟨"access-secret", "refresh-secret", 900, 604800⟩ 0 10
      ⟨"u1", "a@b.c", "Nora", "admin", true⟩ (by decide)⟩

/-- Claim C4: with distinct access and refresh signing secrets, the
generated access token fails `verifyRefreshToken` and the generated
refresh token fails `verifyAccessToken`, at any verification time
(the signature is checked before expiry). -/
theorem access_refresh_secret_separation
    (env : JwtEnv) (now1 now2 : Nat) (p : Payload)
    (hsep : env.jwtSecret ≠ env.jwtRefreshSecret) :
    verifyRefreshToken env now2 (generateTokens env now1 p).1 =
      Except.error "Invalid refresh token" ∧
    verifyAccessToken env now2 (generateTokens env now1 p).2 =
      Except.error "Invalid access token" := by
  constructor
  · simp [generateTokens, verifyRefreshToken, jwtSign, jwtVerify, hsep]
  · simp [generateTokens, verifyAccessToken, jwtSign, jwtVerify, Ne.symm hsep]

/-- Witness for C4 at a concrete environment with distinct secrets. -/
theorem access_refresh_secret_separation_witness :
    (JwtEnv.mk "access-secret" "refresh-secret" 900 604800).jwtSecret ≠
      (JwtEnv.mk "access-secret" "refresh-secret" 900 604800).jwtRefreshSecret ∧
    (verifyRefreshToken ⟨"access-secret", "refresh-secret", 900, 604800⟩ 10
      (generateTokens ⟨"access-secret", "refresh-secret", 900, 604800⟩ 0
        ⟨"u1", "a@b.c", "Nora", "admin", true⟩).1 =
      Except.error "Invalid refresh token" ∧
     verifyAccessToken ⟨"access-secret", "refresh-secret", 900, 604800⟩ 10
      (generateTokens ⟨"access-secret", "refresh-secret", 900, 604800⟩ 0
        ⟨"u1", "a@b.c", "Nora", "admin", true⟩).2 =
      Except.error "Invalid access token") :=
  ⟨by decide,
    access_refresh_secret_separation
      ⟨"access-secret", "refresh-secret", 900, 604800⟩ 0 10
      ⟨"u1", "a@b.c", "Nora", "admin", true⟩ (by decide)⟩

/-- Claim C5: whenever the Authorization header is absent or does not
split into exactly two space-separated parts with first part "Bearer",
extraction yields no token and the authenticate pipeline fails with the
MissingToken response — for every injected verifier and user lookup, so
no token is parsed or verified. -/
theorem malformed_header_yields_missing_token
    (header : Option String) (verify : String → Except String JwtClaims)
    (findById : String → Option User) (bl : List String)
    (hbad : bearerFormatOk header = false) :
    getTokenFromHeader header = none ∧
    authenticate verify findById bl header =
      Except.error ⟨401, "Access token required", none⟩ := by
  have hnone : getTokenFromHeader header = none := by
    cases header with
    | none => rfl
    | some s =>
      by_cases hs : s = ""
      · simp [getTokenFromHeader, hs]
      · have hcond : (jsSplit s ' ').length ≠ 2 ∨ (jsSplit s ' ').head? ≠ some "Bearer" := by
          by_contra hcon
          push_neg at hcon
          simp [bearerFormatOk, hcon.1, hcon.2] at hbad
        simp only [getTokenFromHeader, hs]
        rw [if_pos hcond]
        simp
  refine ⟨hnone, ?_⟩
  simp [authenticate, hnone]

/-- Witness for C5 on the wrong-scheme header "Token abc123". -/
theorem malformed_header_yields_missing_token_witness :
    bearerFormatOk (some "Token abc123") = false ∧
    (getTokenFromHeader (some "Token abc123") = none ∧
     authenticate (fun _ => Except.ok (JwtClaims.uid "u1")) (fun _ => none) []
       (some "Token abc123") =
       Except.error ⟨401, "Access token required", none⟩) :=
  ⟨by decide,
    malformed_header_yields_missing_token (some "Token abc123")
      (fun _ => Except.ok (JwtClaims.uid "u1")) (fun _ => none) [] (by decide)⟩

/-- Claim C6: whenever a `blacklistToken` call on a blacklist within the
size bound pushes the set over 10,000 entries, the result is exactly the
suffix of the 5,000 most recently added entries in insertion order, it
has exactly 5,000 entries, and it contains the token just added. -/
theorem blacklistToken_eviction_retains_recent (bl : List String) (t : String)
    (hlen : bl.length ≤ 10000)
    (hev : (setAdd bl t).length > 10000) :
    blacklistToken bl t = (setAdd bl t).drop ((setAdd bl t).length - 5000) ∧
    (blacklistToken bl t).length = 5000 ∧
    t ∈ blacklistToken bl t := by
  have h1 : blacklistToken bl t = (setAdd bl t).drop ((setAdd bl t).length - 5000) := by
    rw [blacklistToken]
    simp only [if_pos hev]
  refine ⟨h1, ?_, mem_blacklistToken_self bl t hlen⟩
  rw [h1, List.length_drop]
  omega

/-- The concrete 10,000-entry blacklist used by the C6 witness is within
the size bound. -/
theorem replicate_a_length_le : (List.replicate 10000 ("a" : String)).length ≤ 10000 := by
  rw [List.length_replicate]

/-- Adding the fresh token "b" to the concrete 10,000-entry blacklist
pushes it over the bound. -/
theorem replicate_a_setAdd_gt :
    (setAdd (List.replicate 10000 ("a" : String)) "b").length > 10000 := by
  have hnm : ("b" : String) ∉ List.replicate 10000 "a" :=
    fun h => absurd (List.eq_of_mem_replicate h) (by decide)
  rw [setAdd, if_neg hnm, List.length_append, List.length_replicate,
    List.length_singleton]
  omega

/-- Witness for C6: an eviction fired by the 10,001st entry. -/
theorem blacklistToken_eviction_retains_recent_witness :
    (List.replicate 10000 "a").length ≤ 10000 ∧
    (setAdd (List.replicate 10000 "a") "b").length > 10000 ∧
    (blacklistToken (List.replicate 10000 "a") "b" =
      (setAdd (List.replicate 10000 "a") "b").drop
        ((setAdd (List.replicate 10000 "a") "b").length - 5000) ∧
     (blacklistToken (List.replicate 10000 "a") "b").length = 5000 ∧
     "b" ∈ blacklistToken (List.replicate 10000 "a") "b") :=
  ⟨replicate_a_length_le, replicate_a_setAdd_gt,
    blacklistToken_eviction_retains_recent (List.replicate 10000 "a") "b"
      replicate_a_length_le replicate_a_setAdd_gt⟩

/-- Claim C10: every `blacklistToken` call on a blacklist within the size
bound returns a blacklist of at most 10,000 entries (at most 5,000 when
the call fired the eviction) and the added token is blacklisted on
return, eviction or not. -/
theorem blacklistToken_bound_invariant (bl : List String) (t : String)
    (hlen : bl.length ≤ 10000) :
    (blacklistToken bl t).length ≤ 10000 ∧
    ((setAdd bl t).length > 10000 → (blacklistToken bl t).length ≤ 5000) ∧
    isTokenBlacklisted (blacklistToken bl t) t = true := by
  have hmem : isTokenBlacklisted (blacklistToken bl t) t = true :=
    contains_of_mem _ _ (mem_blacklistToken_self bl t hlen)
  by_cases hev : (setAdd bl t).length > 10000
  · have hl : (blacklistToken bl t).length = 5000 := by
      rw [blacklistToken]
      simp only [if_pos hev, List.length_drop]
      omega
    exact ⟨by omega, fun _ => by omega, hmem⟩
  · have hl : (blacklistToken bl t).length = (setAdd bl t).length := by
      rw [blacklistToken]
      simp only [if_neg hev]
    exact ⟨by omega, fun h => absurd h hev, hmem⟩

/-- Witness for C10 on the empty blacklist. -/
theorem blacklistToken_bound_invariant_witness :
    ([] : List String).length ≤ 10000 ∧
    ((blacklistToken [] "tok1").length ≤ 10000 ∧
     ((setAdd [] "tok1").length > 10000 → (blacklistToken [] "tok1").length ≤ 5000) ∧
     isTokenBlacklisted (blacklistToken [] "tok1") "tok1" = true) :=
  ⟨by decide, blacklistToken_bound_invariant [] "tok1" (by decide)⟩

/-- Claim C9: a successful refresh rotates the presented token — the
result persists the user with the presented token removed and the fresh
refresh token appended, no remaining record carries the presented
string, the fresh record is present, and an immediately repeated refresh
with the same presented token against the updated user fails with
INVALID_REFRESH_TOKEN.  The session-store operations are modelled from
the spec (see `removeRefreshToken`, `addRefreshToken`). -/
theorem refresh_rotates_presented_token
    (verifyR : String → Except String JwtClaims)
    (findById findById2 : String → Option User)
    (gen : Payload → String × String) (now : Nat) (rt : String)
    (c : JwtClaims) (u : User)
    (hrt : rt ≠ "")
    (hv : verifyR rt = Except.ok c)
    (hf : findById c.userId = some u)
    (ha : u.isActive = true)
    (hm : u.refreshTokens.any (fun r => r.token = rt) = true)
    (hnew : (gen (createPayload u)).2 ≠ rt)
    (hf2 : findById2 c.userId =
      some (addRefreshToken (removeRefreshToken u rt) (gen (createPayload u)).2 now)) :
    refresh verifyR findById gen now (some rt) =
      Except.ok ⟨addRefreshToken (removeRefreshToken u rt) (gen (createPayload u)).2 now,
        (gen (createPayload u)).1, (gen (createPayload u)).2⟩ ∧
    (addRefreshToken (removeRefreshToken u rt) (gen (createPayload u)).2 now).refreshTokens.any
      (fun r => r.token = rt) = false ∧
    (RefreshRecord.mk (gen (createPayload u)).2 now) ∈
      (addRefreshToken (removeRefreshToken u rt) (gen (createPayload u)).2 now).refreshTokens ∧
    refresh verifyR findById2 gen now (some rt) =
      Except.error ⟨401, "Invalid refresh token", some "INVALID_REFRESH_TOKEN"⟩ := by
  have hno : (addRefreshToken (removeRefreshToken u rt) (gen (createPayload u)).2 now).refreshTokens.any
      (fun r => r.token = rt) = false := rotated_no_old u rt _ now hnew
  have hactive : (addRefreshToken (removeRefreshToken u rt) (gen (createPayload u)).2 now).isActive = true := by
    simp [addRefreshToken, removeRefreshToken, ha]
  refine ⟨?_, hno, rotated_has_new u rt _ now, ?_⟩
  · simp [refresh, hrt, hv, hf, ha, hm]
  · simp [refresh, hrt, hv, hf2, hactive, hno]

/-- Witness for C9: the user holds exactly the presented record "rt0";
the refresh succeeds, rotates to "rt1", and the repeated refresh with
"rt0" fails INVALID_REFRESH_TOKEN. -/
theorem refresh_rotates_presented_token_witness :
    ("rt0" : String) ≠ "" ∧
    (User.mk "u1" "a@b.c" "Nora" "admin" true [⟨"rt0", 0⟩]).refreshTokens.any
      (fun r => r.token = "rt0") = true ∧
    (refresh (fun _ => Except.ok (JwtClaims.uid "u1"))
       (fun _ => some (User.mk "u1" "a@b.c" "Nora" "admin" true [⟨"rt0", 0⟩]))
       (fun _ => ("at1", "rt1")) 0 (some "rt0") =
       Except.ok ⟨addRefreshToken
           (removeRefreshToken (User.mk "u1" "a@b.c" "Nora" "admin" true [⟨"rt0", 0⟩]) "rt0")
           ((fun (_ : Payload) => (("at1" : String), ("rt1" : String)))
             (createPayload (User.mk "u1" "a@b.c" "Nora" "admin" true [⟨"rt0", 0⟩]))).2 0,
         ((fun (_ : Payload) => (("at1" : String), ("rt1" : String)))
             (createPayload (User.mk "u1" "a@b.c" "Nora" "admin" true [⟨"rt0", 0⟩]))).1,
         ((fun (_ : Payload) => (("at1" : String), ("rt1" : String)))
             (createPayload (User.mk "u1" "a@b.c" "Nora" "admin" true [⟨"rt0", 0⟩]))).2⟩ ∧
     (addRefreshToken
         (removeRefreshToken (User.mk "u1" "a@b.c" "Nora" "admin" true [⟨"rt0", 0⟩]) "rt0")
         ((fun (_ : Payload) => (("at1" : String), ("rt1" : String)))
           (createPayload (User.mk "u1" "a@b.c" "Nora" "admin" true [⟨"rt0", 0⟩]))).2 0).refreshTokens.any
       (fun r => r.token = "rt0") = false ∧
     (RefreshRecord.mk ((fun (_ : Payload) => (("at1" : String), ("rt1" : String)))
           (createPayload (User.mk "u1" "a@b.c" "Nora" "admin" true [⟨"rt0", 0⟩]))).2 0) ∈
       (addRefreshToken
         (removeRefreshToken (User.mk "u1" "a@b.c" "Nora" "admin" true [⟨"rt0", 0⟩]) "rt0")
         ((fun (_ : Payload) => (("at1" : String), ("rt1" : String)))
           (createPayload (User.mk "u1" "a@b.c" "Nora" "admin" true [⟨"rt0", 0⟩]))).2 0).refreshTokens ∧
     refresh (fun _ => Except.ok (JwtClaims.uid "u1"))
       (fun _ => some (addRefreshToken
         (removeRefreshToken (User.mk "u1" "a@b.c" "Nora" "admin" true [⟨"rt0", 0⟩]) "rt0")
         ((fun (_ : Payload) => (("at1" : String), ("rt1" : String)))
           (createPayload (User.mk "u1" "a@b.c" "Nora" "admin" true [⟨"rt0", 0⟩]))).2 0))
       (fun _ => ("at1", "rt1")) 0 (some "rt0") =
       Except.error ⟨401, "Invalid refresh token", some "INVALID_REFRESH_TOKEN"⟩) :=
  ⟨by decide, by decide,
    refresh_rotates_presented_token
      (fun _ => Except.ok (JwtClaims.uid "u1"))
      (fun _ => some (User.mk "u1" "a@b.c" "Nora" "admin" true [⟨"rt0", 0⟩]))
      (fun _ => some (addRefreshToken
         (removeRefreshToken (User.mk "u1" "a@b.c" "Nora" "admin" true [⟨"rt0", 0⟩]) "rt0")
         ((fun (_ : Payload) => (("at1" : String), ("rt1" : String)))
           (createPayload (User.mk "u1" "a@b.c" "Nora" "admin" true [⟨"rt0", 0⟩]))).2 0))
      (fun _ => ("at1", "rt1")) 0 "rt0" (JwtClaims.uid "u1")
      (User.mk "u1" "a@b.c" "Nora" "admin" true [⟨"rt0", 0⟩])
      (by decide) rfl rfl rfl (by decide) (by decide) rfl⟩

end FieldMaintenance

namespace FieldMaintenance

/-- Claim C8 counterexample: an undecodable token (Malformed) and a token
with a bad signature (Invalid) produce the identical failure result from
`verifyAccessToken` — the error `Error('Invalid access token')` — and
likewise from `verifyRefreshToken` — the error
`Error('Invalid refresh token')` — so the three failure kinds are not
pairwise distinguishable by the caller for either verifier. -/
theorem verify_failure_kinds_counterexample :
    verifyAccessToken ⟨"access-secret", "refresh-secret", 900, 604800⟩ 0
        (TokenString.plain "not-a-jwt") =
      verifyAccessToken ⟨"access-secret", "refresh-secret", 900, 604800⟩ 0
        (TokenString.jwt ⟨JwtClaims.uid "u1", "wrong-secret", 0, 900, issuer, audience⟩) ∧
    verifyAccessToken ⟨"access-secret", "refresh-secret", 900, 604800⟩ 0
        (TokenString.plain "not-a-jwt") = Except.error "Invalid access token" ∧
    verifyRefreshToken ⟨"access-secret", "refresh-secret", 900, 604800⟩ 0
        (TokenString.plain "not-a-jwt") =
      verifyRefreshToken ⟨"access-secret", "refresh-secret", 900, 604800⟩ 0
        (TokenString.jwt ⟨JwtClaims.uid "u1", "wrong-secret", 0, 900, issuer, audience⟩) ∧
    verifyRefreshToken ⟨"access-secret", "refresh-secret", 900, 604800⟩ 0
        (TokenString.plain "not-a-jwt") = Except.error "Invalid refresh token" :=
  ⟨rfl, rfl, rfl, rfl⟩

/-- Claim C8 amended: for both `verifyAccessToken` and
`verifyRefreshToken`, Expired is distinguishable from the other failure
kinds, but an undecodable token and a bad-signature token produce the
same Invalid failure result from the verifier. -/
theorem verify_failure_kinds_amended
    (env : JwtEnv) (now : Nat) (s : String) (st st2 st3 st4 : SignedToken)
    (h1 : st.secret ≠ env.jwtSecret)
    (h2 : st2.secret = env.jwtSecret) (h3 : st2.exp ≤ now)
    (h4 : st3.secret ≠ env.jwtRefreshSecret)
    (h5 : st4.secret = env.jwtRefreshSecret) (h6 : st4.exp ≤ now) :
    verifyAccessToken env now (TokenString.plain s) = Except.error "Invalid access token" ∧
    verifyAccessToken env now (TokenString.jwt st) = Except.error "Invalid access token" ∧
    verifyAccessToken env now (TokenString.jwt st2) = Except.error "Access token expired" ∧
    ("Access token expired" : String) ≠ "Invalid access token" ∧
    verifyRefreshToken env now (TokenString.plain s) = Except.error "Invalid refresh token" ∧
    verifyRefreshToken env now (TokenString.jwt st3) = Except.error "Invalid refresh token" ∧
    verifyRefreshToken env now (TokenString.jwt st4) = Except.error "Refresh token expired" ∧
    ("Refresh token expired" : String) ≠ "Invalid refresh token" := by
  refine ⟨rfl, ?_, ?_, by decide, rfl, ?_, ?_, by decide⟩
  · simp [verifyAccessToken, jwtVerify, h1]
  · simp [verifyAccessToken, jwtVerify, h2, h3]
  · simp [verifyRefreshToken, jwtVerify, h4]
  · simp [verifyRefreshToken, jwtVerify, h5, h6]

/-- Witness for the amended C8 at concrete tokens, covering both the
access and refresh verifiers. -/
theorem verify_failure_kinds_amended_witness :
    (SignedToken.mk (JwtClaims.uid "u1") "wrong-secret" 0 900 issuer audience).secret ≠
      (JwtEnv.mk "access-secret" "refresh-secret" 900 604800).jwtSecret ∧
    (SignedToken.mk (JwtClaims.uid "u1") "access-secret" 0 900 issuer audience).secret =
      (JwtEnv.mk "access-secret" "refresh-secret" 900 604800).jwtSecret ∧
    (SignedToken.mk (JwtClaims.uid "u1") "access-secret" 0 900 issuer audience).exp ≤ 1000 ∧
    (SignedToken.mk (JwtClaims.uid "u1") "wrong-secret" 0 900 issuer audience).secret ≠
      (JwtEnv.mk "access-secret" "refresh-secret" 900 604800).jwtRefreshSecret ∧
    (SignedToken.mk (JwtClaims.uid "u1") "refresh-secret" 0 900 issuer audience).secret =
      (JwtEnv.mk "access-secret" "refresh-secret" 900 604800).jwtRefreshSecret ∧
    (SignedToken.mk (JwtClaims.uid "u1") "refresh-secret" 0 900 issuer audience).exp ≤ 1000 ∧
    (verifyAccessToken ⟨"access-secret", "refresh-secret", 900, 604800⟩ 1000
        (TokenString.plain "not-a-jwt") = Except.error "Invalid access token" ∧
     verifyAccessToken ⟨"access-secret", "refresh-secret", 900, 604800⟩ 1000
        (TokenString.jwt ⟨JwtClaims.uid "u1", "wrong-secret", 0, 900, issuer, audience⟩) =
        Except.error "Invalid access token" ∧
     verifyAccessToken ⟨"access-secret", "refresh-secret", 900, 604800⟩ 1000
        (TokenString.jwt ⟨JwtClaims.uid "u1", "access-secret", 0, 900, issuer, audience⟩) =
        Except.error "Access token expired" ∧
     ("Access token expired" : String) ≠ "Invalid access token" ∧
     verifyRefreshToken ⟨"access-secret", "refresh-secret", 900, 604800⟩ 1000
        (TokenString.plain "not-a-jwt") = Except.error "Invalid refresh token" ∧
     verifyRefreshToken ⟨"access-secret", "refresh-secret", 900, 604800⟩ 1000
        (TokenString.jwt ⟨JwtClaims.uid "u1", "wrong-secret", 0, 900, issuer, audience⟩) =
        Except.error "Invalid refresh token" ∧
     verifyRefreshToken ⟨"access-secret", "refresh-secret", 900, 604800⟩ 1000
        (TokenString.jwt ⟨JwtClaims.uid "u1", "refresh-secret", 0, 900, issuer, audience⟩) =
        Except.error "Refresh token expired" ∧
     ("Refresh token expired" : String) ≠ "Invalid refresh token") :=
  ⟨by decide, by decide, by decide, by decide, by decide, by decide,
    verify_failure_kinds_amended
      ⟨"access-secret", "refresh-secret", 900, 604800⟩ 1000 "not-a-jwt"
      ⟨JwtClaims.uid "u1", "wrong-secret", 0, 900, issuer, audience⟩
      ⟨JwtClaims.uid "u1", "access-secret", 0, 900, issuer, audience⟩
      ⟨JwtClaims.uid "u1", "wrong-secret", 0, 900, issuer, audience⟩
      ⟨JwtClaims.uid "u1", "refresh-secret", 0, 900, issuer, audience⟩
      (by decide) (by decide) (by decide) (by decide) (by decide) (by decide)⟩

/-- Claim C7 counterexample: UserNotFound during refresh produces HTTP
404, not 401, and the Invalid branch of the authenticate middleware
produces a 401 response whose body carries no machine-readable code. -/
theorem error_taxonomy_counterexample :
    refresh (fun _ => Except.ok (JwtClaims.uid "u1")) (fun _ => none)
      (fun _ => ("at1", "rt1")) 0 (some "rt0") =
      Except.error ⟨404, "User not found", some "USER_NOT_FOUND"⟩ ∧
    (404 : Nat) ≠ 401 ∧
    authenticate (fun _ => Except.error "Invalid access token") (fun _ => none)
      [] (some "Bearer tok") =
      Except.error ⟨401, "Invalid access token", none⟩ ∧
    (ErrResponse.mk 401 "Invalid access token" none).code = none :=
  ⟨rfl, by decide, rfl, rfl⟩

/-- Claim C7 amended: every failure of the authenticate middleware is an
HTTP 401 but only Expired carries a machine-readable code
(TOKEN_EXPIRED); every failure of the refresh endpoint carries a
machine-readable code, with AccountDeactivated and Invalid at 401,
UserNotFound at 404, a missing body token at 400 and a cryptographic
verification failure surfacing as 500 INTERNAL_ERROR.  The hypothesis
`hmsg` restricts the injected verifier to the two messages the real
`verifyAccessToken` can throw. -/
theorem error_responses_amended
    (verify : String → Except String JwtClaims) (findById : String → Option User)
    (bl : List String) (header : Option String) (e : ErrResponse)
    (verifyR : String → Except String JwtClaims) (findById2 : String → Option User)
    (gen : Payload → String × String) (now : Nat) (body : Option String) (e2 : ErrResponse)
    (hmsg : ∀ s m, verify s = Except.error m →
      m = "Access token expired" ∨ m = "Invalid access token")
    (hae : authenticate verify findById bl header = Except.error e)
    (hre : refresh verifyR findById2 gen now body = Except.error e2) :
    (e.status = 401 ∧ (e.code = some "TOKEN_EXPIRED" ∨ e.code = none)) ∧
    (e2 = ⟨400, "Refresh token required", some "REFRESH_TOKEN_REQUIRED"⟩ ∨
     e2 = ⟨500, "Something went wrong", some "INTERNAL_ERROR"⟩ ∨
     e2 = ⟨404, "User not found", some "USER_NOT_FOUND"⟩ ∨
     e2 = ⟨401, "Account is deactivated", some "ACCOUNT_DEACTIVATED"⟩ ∨
     e2 = ⟨401, "Invalid refresh token", some "INVALID_REFRESH_TOKEN"⟩) := by
  constructor
  · cases hh : getTokenFromHeader header with
    | none =>
      have hval : authenticate verify findById bl header =
          Except.error ⟨401, "Access token required", none⟩ := by
        simp [authenticate, hh]
      rw [hval] at hae
      injection hae with h
      subst h
      exact ⟨rfl, Or.inr rfl⟩
    | some token =>
      by_cases htok : token = ""
      · have hval : authenticate verify findById bl header =
            Except.error ⟨401, "Access token required", none⟩ := by
          simp [authenticate, hh, htok]
        rw [hval] at hae
        injection hae with h
        subst h
        exact ⟨rfl, Or.inr rfl⟩
      · by_cases hbl : bl.contains token = true
        · have hbl2 : token ∈ bl := by simpa [List.elem_eq_mem] using hbl
          have hval : authenticate verify findById bl header =
              Except.error ⟨401, "Token has been revoked", none⟩ := by
            simp [authenticate, hh, htok, hbl2]
          rw [hval] at hae
          injection hae with h
          subst h
          exact ⟨rfl, Or.inr rfl⟩
        · have hbl2 : token ∉ bl := by simpa [List.elem_eq_mem] using hbl
          cases hv2 : verify token with
          | error m =>
            rcases hmsg token m hv2 with hm | hm
            · subst hm
              have hexp : jsIncludes "Access token expired" "expired" = true := by decide
              have hval : authenticate verify findById bl header =
                  Except.error ⟨401, "Access token expired", some "TOKEN_EXPIRED"⟩ := by
                simp [authenticate, hh, htok, hbl2, hv2, hexp]
              rw [hval] at hae
              injection hae with h
              subst h
              exact ⟨rfl, Or.inl rfl⟩
            · subst hm
              have hexp : jsIncludes "Invalid access token" "expired" = false := by decide
              have hinv : jsIncludes "Invalid access token" "Invalid" = true := by decide
              have hval : authenticate verify findById bl header =
                  Except.error ⟨401, "Invalid access token", none⟩ := by
                simp [authenticate, hh, htok, hbl2, hv2, hexp, hinv]
              rw [hval] at hae
              injection hae with h
              subst h
              exact ⟨rfl, Or.inr rfl⟩
          | ok d =>
            cases hfd : findById d.userId with
            | none =>
              have hval : authenticate verify findById bl header =
                  Except.error ⟨401, "User not found", none⟩ := by
                simp [authenticate, hh, htok, hbl2, hv2, hfd]
              rw [hval] at hae
              injection hae with h
              subst h
              exact ⟨rfl, Or.inr rfl⟩
            | some user =>
              by_cases hac : user.isActive = false
              · have hval : authenticate verify findById bl header =
                    Except.error ⟨401, "Account is deactivated", none⟩ := by
                  simp [authenticate, hh, htok, hbl2, hv2, hfd, hac]
                rw [hval] at hae
                injection hae with h
                subst h
                exact ⟨rfl, Or.inr rfl⟩
              · have hval : authenticate verify findById bl header =
                    Except.ok (user, token) := by
                  simp [authenticate, hh, htok, hbl2, hv2, hfd, hac]
                rw [hval] at hae
                injection hae
  · cases body with
    | none =>
      have hval : refresh verifyR findById2 gen now none =
          Except.error ⟨400, "Refresh token required", some "REFRESH_TOKEN_REQUIRED"⟩ := rfl
      rw [hval] at hre
      injection hre with h
      subst h
      exact Or.inl rfl
    | some rt =>
      by_cases hrt : rt = ""
      · have hval : refresh verifyR findById2 gen now (some rt) =
            Except.error ⟨400, "Refresh token required", some "REFRESH_TOKEN_REQUIRED"⟩ := by
          simp [refresh, hrt]
        rw [hval] at hre
        injection hre with h
        subst h
        exact Or.inl rfl
      · cases hv2 : verifyR rt with
        | error m =>
          have hval : refresh verifyR findById2 gen now (some rt) =
              Except.error ⟨500, "Something went wrong", some "INTERNAL_ERROR"⟩ := by
            simp [refresh, hrt, hv2]
          rw [hval] at hre
          injection hre with h
          subst h
          exact Or.inr (Or.inl rfl)
        | ok d =>
          cases hfd : findById2 d.userId with
          | none =>
            have hval : refresh verifyR findById2 gen now (some rt) =
                Except.error ⟨404, "User not found", some "USER_NOT_FOUND"⟩ := by
              simp [refresh, hrt, hv2, hfd]
            rw [hval] at hre
            injection hre with h
            subst h
            exact Or.inr (Or.inr (Or.inl rfl))
          | some user =>
            by_cases hac : user.isActive = false
            · have hval : refresh verifyR findById2 gen now (some rt) =
                  Except.error ⟨401, "Account is deactivated", some "ACCOUNT_DEACTIVATED"⟩ := by
                simp [refresh, hrt, hv2, hfd, hac]
              rw [hval] at hre
              injection hre with h
              subst h
              exact Or.inr (Or.inr (Or.inr (Or.inl rfl)))
            · by_cases hex : user.refreshTokens.any (fun r => r.token = rt) = false
              · have hval : refresh verifyR findById2 gen now (some rt) =
                    Except.error ⟨401, "Invalid refresh token", some "INVALID_REFRESH_TOKEN"⟩ := by
                  simp [refresh, hrt, hv2, hfd, hac, hex]
                rw [hval] at hre
                injection hre with h
                subst h
                exact Or.inr (Or.inr (Or.inr (Or.inr rfl)))
              · have hval : refresh verifyR findById2 gen now (some rt) =
                    Except.ok ⟨addRefreshToken (removeRefreshToken user rt) (gen (createPayload user)).2 now,
                      (gen (createPayload user)).1, (gen (createPayload user)).2⟩ := by
                  simp [refresh, hrt, hv2, hfd, hac, hex]
                rw [hval] at hre
                injection hre

/-- Witness for the amended C7 on the missing-header authenticate failure
and the missing-body refresh failure. -/
theorem error_responses_amended_witness :
    authenticate (fun _ => Except.error "Invalid access token") (fun _ => none) [] none =
      Except.error ⟨401, "Access token required", none⟩ ∧
    refresh (fun _ => Except.ok (JwtClaims.uid "u1")) (fun _ => none)
      (fun _ => ("at1", "rt1")) 0 none =
      Except.error ⟨400, "Refresh token required", some "REFRESH_TOKEN_REQUIRED"⟩ ∧
    (((ErrResponse.mk 401 "Access token required" none).status = 401 ∧
      ((ErrResponse.mk 401 "Access token required" none).code = some "TOKEN_EXPIRED" ∨
       (ErrResponse.mk 401 "Access token required" none).code = none)) ∧
     ((ErrResponse.mk 400 "Refresh token required" (some "REFRESH_TOKEN_REQUIRED")) =
        ⟨400, "Refresh token required", some "REFRESH_TOKEN_REQUIRED"⟩ ∨
      (ErrResponse.mk 400 "Refresh token required" (some "REFRESH_TOKEN_REQUIRED")) =
        ⟨500, "Something went wrong", some "INTERNAL_ERROR"⟩ ∨
      (ErrResponse.mk 400 "Refresh token required" (some "REFRESH_TOKEN_REQUIRED")) =
        ⟨404, "User not found", some "USER_NOT_FOUND"⟩ ∨
      (ErrResponse.mk 400 "Refresh token required" (some "REFRESH_TOKEN_REQUIRED")) =
        ⟨401, "Account is deactivated", some "ACCOUNT_DEACTIVATED"⟩ ∨
      (ErrResponse.mk 400 "Refresh token required" (some "REFRESH_TOKEN_REQUIRED")) =
        ⟨401, "Invalid refresh token", some "INVALID_REFRESH_TOKEN"⟩)) :=
  ⟨rfl, rfl,
    error_responses_amended
      (fun _ => Except.error "Invalid access token") (fun _ => none) [] none
      (ErrResponse.mk 401 "Access token required" none)
      (fun _ => Except.ok (JwtClaims.uid "u1")) (fun _ => none)
      (fun _ => ("at1", "rt1")) 0 none
      (ErrResponse.mk 400 "Refresh token required" (some "REFRESH_TOKEN_REQUIRED"))
      (fun s m h => Or.inr (by injection h with h2; exact h2.symm))
      rfl rfl⟩

end FieldMaintenance
